import Mathlib

/-!
Verification of the ECR-VP execution shell.

The frontend API client (src/frontend/src/api.js, src/unnamed/part_001) and
the React pages (src/frontend/src/App.jsx) are embedded shallowly below:
JavaScript objects sent as JSON bodies become values of an explicit JSON
type, and the JavaScript truthiness operators used by the client
(the or-else operator and the nullish-coalescing operator) become explicit
helper functions on Option.

The backend core (corpus sealer, artifact store, session orchestrator,
integrity/export engine) is not part of the shipped sources; where a claim
depends on it, it is modelled from the specification, and each such
definition is marked in its doc comment.
-/

namespace ECRVP

/-- A JSON value, as produced by JSON.stringify on the client's request
bodies. Field order inside an object is the JavaScript literal order. -/
inductive JVal where
  | jnull : JVal
  | jbool : Bool → JVal
  | jnum : Int → JVal
  | jstr : String → JVal
  | jarr : List JVal → JVal
  | jobj : List (String × JVal) → JVal

/-- Keys of a JSON object, in literal order; empty for non-objects. -/
def JVal.objKeys : JVal → List String
  | .jobj fields => fields.map Prod.fst
  | _ => []

/-- Field lookup in a JSON object. -/
def JVal.lookup (v : JVal) (k : String) : Option JVal :=
  match v with
  | .jobj fields => (fields.find? (fun p => p.1 == k)).map Prod.snd
  | _ => none

/-- JavaScript `v || d` on an optional string: `none` models null/undefined,
and the empty string is also falsy. -/
def jsStrOr (v : Option String) (d : String) : String :=
  match v with
  | none => d
  | some s => if s = "" then d else s

/-- JavaScript `v || null` on an optional string, serialised to JSON. -/
def jsStrOrNull (v : Option String) : JVal :=
  match v with
  | none => .jnull
  | some s => if s = "" then .jnull else .jstr s

/-- JavaScript `v || null` on an optional string, kept as an Option. -/
def jsStrOrNone (v : Option String) : Option String :=
  match v with
  | none => none
  | some s => if s = "" then none else some s

/-- JavaScript `v || d` on an optional number: null, undefined and 0 are
falsy. -/
def jsNumOr (v : Option Int) (d : Int) : Int :=
  match v with
  | none => d
  | some n => if n = 0 then d else n

/-- JavaScript `v ?? d` on an optional number: only null/undefined default. -/
def jsNullishNum (v : Option Int) (d : Int) : Int :=
  match v with
  | none => d
  | some n => n

/-- One interpreter entry as supplied to createSession by the caller
(api.js line 91): optional fields model JavaScript null/undefined. -/
structure InterpreterInput where
  provider : String
  model : String
  displayName : Option String
  apiKeyEnv : Option String
  baseUrl : Option String
  maxTokens : Option Int
  temperature : Option Int

/-- The interpreter object transmitted inside the session-creation body
(api.js lines 98-106): display_name defaults to provider/model, api_key_env
and base_url default to null, max_tokens uses the or-else operator with
16384, temperature uses the nullish-coalescing operator with 0. -/
def interpreterJson (i : InterpreterInput) : JVal :=
  .jobj [("provider", .jstr i.provider),
         ("model", .jstr i.model),
         ("display_name", .jstr (jsStrOr i.displayName (i.provider ++ "/" ++ i.model))),
         ("api_key_env", jsStrOrNull i.apiKeyEnv),
         ("base_url", jsStrOrNull i.baseUrl),
         ("max_tokens", .jnum (jsNumOr i.maxTokens 16384)),
         ("temperature", .jnum (jsNullishNum i.temperature 0))]

/-- The argument object of createSession (api.js line 91). -/
structure CreateSessionInput where
  passportId : String
  interpreters : List InterpreterInput
  sessionType : Option String
  sourceSessionId : Option String

/-- The session-creation request body built by createSession in
src/frontend/src/api.js (lines 91-109): session_type defaults to
strict_verifier via the or-else operator, source_session_id becomes null
when absent or empty. -/
def createSessionBody (p : CreateSessionInput) : JVal :=
  .jobj [("passport_id", .jstr p.passportId),
         ("session_type", .jstr (jsStrOr p.sessionType "strict_verifier")),
         ("source_session_id", jsStrOrNull p.sourceSessionId),
         ("interpreters", .jarr (p.interpreters.map interpreterJson))]

/-- The session-creation request body built by the createSession variant in
src/unnamed/part_001 (lines 91-107): only passport_id and interpreters are
transmitted. -/
def createSessionBodyV0 (passportId : String) (interpreters : List InterpreterInput) : JVal :=
  .jobj [("passport_id", .jstr passportId),
         ("interpreters", .jarr (interpreters.map interpreterJson))]

/-- The session-execution request body built by executeSession (api.js
lines 111-116): the destructured option defaults parallel to true when the
caller passes no option object or no parallel property. -/
def executeSessionBody (parallel : Option Bool) : JVal :=
  .jobj [("parallel", .jbool (parallel.getD true))]

/-- The parallel option the sessions page passes to executeSession
(App.jsx line 906). -/
def sessionsPageExecuteParallel : Option Bool := some true

/-- The createSession argument built by the sessions page (App.jsx line
905): the page state sourceSessionId starts as the empty string and is
passed through the or-else operator with null. -/
def sessionsPageCreateInput (passportId : String) (interps : List InterpreterInput)
    (sessionType : String) (sourceSessionId : String) : CreateSessionInput :=
  ⟨passportId, interps, some sessionType, jsStrOrNone (some sourceSessionId)⟩

/-- One protocol mode entry of the PROTOCOL_MODES constant (App.jsx lines
44-53). -/
structure ProtocolMode where
  key : String
  label : String
  desc : String
deriving DecidableEq

/-- The fixed ordered PROTOCOL_MODES list (App.jsx lines 44-53). -/
def PROTOCOL_MODES : List ProtocolMode :=
  [⟨"Rc", "Rc Mode", "Architecture as class"⟩,
   ⟨"Ri", "Ri Mode", "Invariants & prohibitions"⟩,
   ⟨"DET", "Declarative Epistemic Typology", "Epistemic layer classification"⟩,
   ⟨"Ra", "Ra Mode", "Engineering realizability"⟩,
   ⟨"Failure", "Failure Mode", "Failure & risk analysis"⟩,
   ⟨"Novelty", "Novelty & Positioning", "Structural novelty"⟩,
   ⟨"Verdict", "Verdict", "Engineering verdict"⟩,
   ⟨"Maturity", "Project Maturity Summary", "Operational readiness"⟩]

/-- The missing-modes list read from the run response metadata (App.jsx
line 1018): a falsy missing_modes field defaults to the empty list. -/
def missingModesOf (missing : Option (List String)) : List String :=
  missing.getD []

/-- Whether the results page renders a mode tag as detected (App.jsx line
1141): detected unless the missing-modes list contains the marker's key or
its display label. -/
def modeDetected (missingModes : List String) (m : ProtocolMode) : Bool :=
  !(missingModes.contains m.key) && !(missingModes.contains m.label)

/-- The backend response to a license validation request, as consumed by
validateKey (App.jsx lines 2235-2246): optional fields model absent or
null JSON members. -/
structure LicenseResponse where
  valid : Bool
  customerName : Option String
  expiresAt : Option String
  status : Option String
  error : Option String

/-- The unlock payload handed to onUnlock (App.jsx lines 2238-2243 and
line 2253). -/
structure LicenseInfo where
  key : String
  customerName : String
  expiresAt : Option String
  status : String
deriving DecidableEq

/-- Outcome of one validateKey call: either the gate unlocks with the
given payload, or it stays locked, with the error message shown when the
call was not silent. -/
inductive GateOutcome where
  | unlocked : LicenseInfo → GateOutcome
  | locked : Option String → GateOutcome
deriving DecidableEq

/-- The validateKey function of the license gate (App.jsx lines
2231-2261), as a pure function from the saved-storage state, the key under
test, the silent flag, and the server response (an Except error models the
fetch throwing) to the storage state after the call and the gate outcome.
A valid response saves the key and unlocks; an invalid response removes
the saved key and stays locked; a thrown call re-reads storage and, when a
key is saved and the call is silent, unlocks with status offline. -/
def validateKey (storage : Option String) (licenseKey : String) (silent : Bool)
    (response : Except Unit LicenseResponse) : Option String × GateOutcome :=
  match response with
  | .ok r =>
    if r.valid then
      (some licenseKey,
       .unlocked ⟨licenseKey, jsStrOr r.customerName "", jsStrOrNone r.expiresAt,
                  jsStrOr r.status "active"⟩)
    else
      (none, .locked (if silent then none
                      else some (jsStrOr r.error "Invalid or expired license key")))
  | .error _ =>
    match storage, silent with
    | some saved, true => (some saved, .unlocked ⟨saved, "", none, "offline"⟩)
    | _, _ => (storage, .locked (if silent then none
                                 else some "Cannot reach license server. Check backend connection."))

/-- Modelled from the spec: the backend core is not among the shipped
sources, so its SHA-256 is modelled as an injective combining function on
naturals (the Cantor-style pairing), which preserves the one property all
integrity claims rely on: distinct inputs yield distinct digests. -/
def hash2 (a b : Nat) : Nat := Nat.pair a b

/-- Modelled from the spec: digest of a finite sequence of naturals (file
bytes, or a list of digests), injective by construction. -/
def fpNats (l : List Nat) : Nat := Nat.pair l.length (l.foldr Nat.pair 0)

/-- Modelled from the spec: digest of a string, via its character codes. -/
def fpString (s : String) : Nat := fpNats (s.data.map Char.toNat)

/-- One corpus file presented to the sealer: filename and raw bytes, in
canonical order given by list position. -/
structure CorpusFile where
  name : String
  bytes : List Nat
deriving DecidableEq

/-- Passport metadata supplied at sealing time. -/
structure PassportMeta where
  purpose : String
  architecturalStatus : String
  canonVersion : String
  constraints : List String
deriving DecidableEq

/-- Modelled from the spec: digest of the passport metadata fields. -/
def metaFp (m : PassportMeta) : Nat :=
  hash2 (fpString m.purpose)
    (hash2 (fpString m.architecturalStatus)
      (hash2 (fpString m.canonVersion) (fpNats (m.constraints.map fpString))))

/-- Modelled from the spec (section 4.1): the passport-level fingerprint is
a hash over, in canonical order, each file fingerprint, each filename, the
total file count, and the supplied metadata fields. -/
def passportFingerprint (files : List CorpusFile) (m : PassportMeta) : Nat :=
  hash2 (fpNats (files.map (fun f => fpNats f.bytes)))
    (hash2 (fpNats (files.map (fun f => fpString f.name)))
      (hash2 files.length (metaFp m)))

/-- A sealed passport: identifier and creation timestamp are caller data;
the file list, per-file fingerprints and passport fingerprint are fixed at
sealing. -/
structure Passport where
  id : String
  createdAt : Nat
  meta : PassportMeta
  files : List CorpusFile
  fileFps : List Nat
  fingerprint : Nat
deriving DecidableEq

/-- Error raised when sealing is given a malformed file list. -/
inductive SealErr where
  | validationErr : String → SealErr
deriving DecidableEq

/-- Modelled from the spec (section 4.1): seal computes a fingerprint per
file and the passport-level fingerprint, failing with a validation error
on an empty file list; it is a pure computation with no side effect. -/
def sealCorpus (id : String) (createdAt : Nat) (files : List CorpusFile)
    (m : PassportMeta) : Except SealErr Passport :=
  if files.isEmpty then .error (.validationErr "empty file list")
  else .ok ⟨id, createdAt, m, files, files.map (fun f => fpNats f.bytes),
            passportFingerprint files m⟩

/-- Metadata stored with one run artifact. -/
structure ArtifactMeta where
  provider : String
  model : String
  capturedAt : Nat
deriving DecidableEq

/-- Modelled from the spec: digest of an artifact's metadata. -/
def artifactMetaFp (m : ArtifactMeta) : Nat :=
  hash2 (fpString m.provider) (hash2 (fpString m.model) m.capturedAt)

/-- A stored artifact: payload bytes, metadata, and the chain fingerprint
linking it to its predecessor in the same session. -/
structure Artifact where
  payload : List Nat
  meta : ArtifactMeta
  chainFp : Nat
deriving DecidableEq

/-- Error raised on an attempted second write to an artifact key. -/
inductive StoreErr where
  | immutabilityViolation : StoreErr
deriving DecidableEq

/-- The artifact store state: an association list from (sessionId, runId)
keys to artifacts, newest first. -/
abbrev ArtifactStore := List ((String × String) × Artifact)

/-- Modelled from the spec (section 4.4): the read primitive of the
artifact store. -/
def readArtifact (st : ArtifactStore) (sid rid : String) : Option Artifact :=
  (st.find? (fun e => e.1 == (sid, rid))).map Prod.snd

/-- Modelled from the spec: the fixed seed value used as the predecessor
fingerprint of a session's first artifact. -/
def seedFp : Nat := 0

/-- Modelled from the spec: the chain fingerprint of the most recent
artifact of a session, or the seed if the session has none. -/
def lastChainFp (st : ArtifactStore) (sid : String) : Nat :=
  match st.find? (fun e => e.1.1 == sid) with
  | some e => e.2.chainFp
  | none => seedFp

/-- Modelled from the spec (section 4.4): write rejects a key that already
has a stored artifact with an immutability violation, leaving the store
untouched; otherwise it stores an artifact whose chain fingerprint hashes
the payload digest, the metadata digest and the predecessor's chain
fingerprint (or the seed). -/
def writeArtifact (st : ArtifactStore) (sid rid : String) (payload : List Nat)
    (meta : ArtifactMeta) : ArtifactStore × Except StoreErr Artifact :=
  match readArtifact st sid rid with
  | some _ => (st, .error .immutabilityViolation)
  | none =>
    let a : Artifact :=
      ⟨payload, meta, hash2 (fpNats payload) (hash2 (artifactMetaFp meta) (lastChainFp st sid))⟩
    (((sid, rid), a) :: st, .ok a)

/-- Terminal state of one run. -/
inductive RunTerminal where
  | captured : RunTerminal
  | errored : RunTerminal
deriving DecidableEq

/-- Session type enumeration. -/
inductive SessionType where
  | strictVerifier : SessionType
  | positionAggregator : SessionType
  | formalization : SessionType
deriving DecidableEq

/-- Session lifecycle state. -/
inductive SessionState where
  | preparing : SessionState
  | loading : SessionState
  | executing : SessionState
  | completed : SessionState
  | awaitingSynthesis : SessionState
  | failed : SessionState
deriving DecidableEq

/-- Modelled from the spec (section 4.2): the session state reached from
executing once all runs are terminal is a deterministic reduction over the
run terminal states: failed only when every run errored, otherwise
awaiting synthesis for strict-verifier and formalization sessions and
completed otherwise. -/
def reduceTerminal (stype : SessionType) (runs : List RunTerminal) : SessionState :=
  if runs.all (fun r => r == .errored) then .failed
  else if stype == .strictVerifier || stype == .formalization then .awaitingSynthesis
  else .completed

/-- Modelled from the spec (sections 7 and 8): backend validation of a
session-creation request, rejected before any run exists: the interpreter
list must be non-empty, and a position-aggregator session must carry a
source session identifier. -/
def validateSessionCreate (sessionType : String) (sourceSessionId : Option String)
    (interpreterCount : Nat) : Option String :=
  if interpreterCount = 0 then some "ValidationError: empty interpreter list"
  else if sessionType = "position_aggregator" ∧ sourceSessionId = none then
    some "ValidationError: source_session_id required for position_aggregator"
  else none

/-- Modelled from the spec: the creation-then-execution pipeline, returning
the number of channels opened alongside the validation outcome; a request
rejected by validation opens no channel, an accepted one opens one channel
per interpreter. -/
def createAndExecute (sessionType : String) (sourceSessionId : Option String)
    (interpreterCount : Nat) : Nat × Option String :=
  match validateSessionCreate sessionType sourceSessionId interpreterCount with
  | some e => (0, some e)
  | none => (interpreterCount, none)

/-- Modelled from the spec (section 4.4): the chain fingerprints of a
session's artifacts in run-creation order, threaded from a given
predecessor fingerprint. -/
def chainFpsAux : Nat → List (List Nat × ArtifactMeta) → List Nat
  | _, [] => []
  | prev, a :: rest =>
    let c := hash2 (fpNats a.1) (hash2 (artifactMetaFp a.2) prev)
    c :: chainFpsAux c rest

/-- Modelled from the spec: chain fingerprints of a session's artifacts,
starting from the fixed seed. -/
def chainFps (arts : List (List Nat × ArtifactMeta)) : List Nat :=
  chainFpsAux seedFp arts

/-- Modelled from the spec (section 4.5): one level of the binary Merkle
tree; an odd leaf count duplicates the last leaf. -/
def merkleLevel : List Nat → List Nat
  | [] => []
  | [x] => [hash2 x x]
  | x :: y :: rest => hash2 x y :: merkleLevel rest

/-- Modelled from the spec: fuelled Merkle-root computation; the fuel is an
upper bound on the number of levels and is set to the leaf count. -/
def merkleRootAux : Nat → List Nat → Nat
  | _, [] => seedFp
  | _, [x] => x
  | 0, _ :: _ :: _ => seedFp
  | fuel + 1, l => merkleRootAux fuel (merkleLevel l)

/-- Modelled from the spec: the Merkle root over a list of leaves. -/
def merkleRoot (l : List Nat) : Nat := merkleRootAux l.length l

/-- Modelled from the spec (section 4.5): the export bundle carries the
passport, every run's payload and metadata, the leaf list (artifact chain
fingerprints in run order), and the Merkle root. -/
structure ExportBundle where
  passport : Passport
  artifacts : List (List Nat × ArtifactMeta)
  leaves : List Nat
  root : Nat

/-- Modelled from the spec: exporting a completed session packages its
artifacts with their chain fingerprints as leaves and the Merkle root over
those leaves. -/
def exportSession (p : Passport) (arts : List (List Nat × ArtifactMeta)) : ExportBundle :=
  ⟨p, arts, chainFps arts, merkleRoot (chainFps arts)⟩

/-- Index of the first position where two leaf lists diverge (a length
mismatch at the shorter list's end also counts as divergence). -/
def firstDivergence : List Nat → List Nat → Option Nat
  | [], [] => none
  | [], _ :: _ => some 0
  | _ :: _, [] => some 0
  | a :: as, b :: bs => if a = b then (firstDivergence as bs).map (· + 1) else some 0

/-- Modelled from the spec (section 4.5): verifyBundle independently
recomputes every chain fingerprint from the bundled payloads and metadata,
compares them with the bundled leaves reporting the first point of
divergence, and checks the Merkle root. -/
def verifyBundle (b : ExportBundle) : Bool × Option Nat :=
  match firstDivergence (chainFps b.artifacts) b.leaves with
  | some i => (false, some i)
  | none => (decide (merkleRoot b.leaves = b.root), none)

/-- Post-export tampering: replace the artifact at one index of a bundle,
leaving the recorded leaves and root untouched. -/
def tamper (b : ExportBundle) (i : Nat) (art : List Nat × ArtifactMeta) : ExportBundle :=
  ⟨b.passport, b.artifacts.set i art, b.leaves, b.root⟩

/-! Helper lemmas about the embedded request bodies. -/

theorem createSessionBody_lookup_source (p : CreateSessionInput) :
    (createSessionBody p).lookup "source_session_id" = some (jsStrOrNull p.sourceSessionId) :=
  rfl

theorem createSessionBody_lookup_interpreters (p : CreateSessionInput) :
    (createSessionBody p).lookup "interpreters" =
      some (.jarr (p.interpreters.map interpreterJson)) :=
  rfl

theorem interpreterJson_lookup_temperature (i : InterpreterInput) :
    (interpreterJson i).lookup "temperature" = some (.jnum (jsNullishNum i.temperature 0)) :=
  rfl

theorem interpreterJson_lookup_maxTokens (i : InterpreterInput) :
    (interpreterJson i).lookup "max_tokens" = some (.jnum (jsNumOr i.maxTokens 16384)) :=
  rfl

/-- C5 counterexample: the createSession variant shipped in
src/unnamed/part_001 transmits a session-creation body whose fields are
only passport_id and interpreters, so the claimed field set (with
session_type and source_session_id) does not hold of every
session-creation call made by the API client. -/
theorem createSessionBodyV0_missing_fields :
    (createSessionBodyV0 "p1" []).objKeys ≠
      ["passport_id", "session_type", "source_session_id", "interpreters"] := by
  decide

/-- C5 (amended): for every session-creation call made by the current API
client (src/frontend/src/api.js), the transmitted body has exactly the
fields passport_id, session_type, source_session_id and interpreters, the
interpreters entry is the array of interpreter objects each with exactly
the fields provider, model, display_name, api_key_env, base_url,
max_tokens and temperature, and source_session_id is null when not
supplied (absent or empty); the older client variant in
src/unnamed/part_001 transmits only passport_id and interpreters. -/
theorem createSessionBody_fields (p : CreateSessionInput) (i : InterpreterInput) :
    (createSessionBody p).objKeys =
      ["passport_id", "session_type", "source_session_id", "interpreters"] ∧
    (createSessionBody p).lookup "interpreters" =
      some (.jarr (p.interpreters.map interpreterJson)) ∧
    (interpreterJson i).objKeys =
      ["provider", "model", "display_name", "api_key_env", "base_url",
       "max_tokens", "temperature"] ∧
    ((p.sourceSessionId = none ∨ p.sourceSessionId = some "") →
      (createSessionBody p).lookup "source_session_id" = some .jnull) := by
  refine ⟨rfl, createSessionBody_lookup_interpreters p, rfl, ?_⟩
  intro h
  rw [createSessionBody_lookup_source]
  rcases h with h | h <;> simp [jsStrOrNull, h]

/-- Demo createSession input with no source session supplied. -/
def demoCreateInput : CreateSessionInput :=
  ⟨"pass1", [], some "strict_verifier", none⟩

/-- Demo interpreter input. -/
def demoInterp : InterpreterInput :=
  ⟨"anthropic", "claude-sonnet-4-5-20250929", none, none, none, none, none⟩

theorem createSessionBody_fields_witness :
    (demoCreateInput.sourceSessionId = none ∨ demoCreateInput.sourceSessionId = some "") ∧
    (createSessionBody demoCreateInput).lookup "source_session_id" = some .jnull ∧
    (createSessionBody demoCreateInput).objKeys =
      ["passport_id", "session_type", "source_session_id", "interpreters"] :=
  ⟨Or.inl rfl,
   (createSessionBody_fields demoCreateInput demoInterp).2.2.2 (Or.inl rfl),
   (createSessionBody_fields demoCreateInput demoInterp).1⟩

/-- C6: execution is parallel by default and sequential only on demand:
executeSession without an explicit option transmits parallel = true, and
the sessions page initiates execution with parallel = true. -/
theorem executeSession_parallel_default :
    executeSessionBody none = .jobj [("parallel", .jbool true)] ∧
    sessionsPageExecuteParallel = some true ∧
    executeSessionBody sessionsPageExecuteParallel = .jobj [("parallel", .jbool true)] :=
  ⟨rfl, rfl, rfl⟩

/-- C8: the fixed ordered marker set is Rc, Ri, DET, Ra, Failure, Novelty,
Verdict, Maturity, and the results page marks a marker as missing exactly
when the response's missing_modes list contains that marker's key or its
display label; the rendering only reports, it never alters the list. -/
theorem mode_detection_exact (missing : List String) (m : ProtocolMode) :
    PROTOCOL_MODES.map ProtocolMode.key =
      ["Rc", "Ri", "DET", "Ra", "Failure", "Novelty", "Verdict", "Maturity"] ∧
    (modeDetected missing m = false ↔ m.key ∈ missing ∨ m.label ∈ missing) := by
  refine ⟨rfl, ?_⟩
  unfold modeDetected
  constructor
  · intro h
    rcases Bool.and_eq_false_iff.mp h with h1 | h1
    · exact Or.inl (List.elem_iff.mp ((Bool.not_eq_false' _).mp h1))
    · exact Or.inr (List.elem_iff.mp ((Bool.not_eq_false' _).mp h1))
  · rintro (h | h)
    · simp only [List.contains, Bool.and_eq_false_imp, Bool.not_eq_false', Bool.not_eq_true',
        List.elem_eq_mem, decide_eq_true_eq, decide_eq_false_iff_not]
      exact fun hn => absurd h hn
    · simp only [List.contains, Bool.and_eq_false_imp, Bool.not_eq_false', Bool.not_eq_true',
        List.elem_eq_mem, decide_eq_true_eq, decide_eq_false_iff_not]
      exact fun _ => h

/-- C9: license-gate outcome as a function of the validation response.
When the silent startup validation of a saved key throws, the gate unlocks
with license status offline and the saved key stays in storage; when the
server instead answers that the key is invalid, the saved key is removed
from storage and the gate does not unlock. -/
theorem licenseGate_silent_outcomes (k : String) (r : LicenseResponse)
    (hr : r.valid = false) :
    validateKey (some k) k true (.error ()) =
      (some k, .unlocked ⟨k, "", none, "offline"⟩) ∧
    (validateKey (some k) k true (.ok r)).1 = none ∧
    ∀ info, (validateKey (some k) k true (.ok r)).2 ≠ .unlocked info := by
  refine ⟨rfl, ?_, ?_⟩
  · simp [validateKey, hr]
  · intro info
    simp [validateKey, hr]

/-- Demo invalid-key response from the license server. -/
def demoLicenseResponse : LicenseResponse :=
  ⟨false, none, none, none, some "License key expired"⟩

theorem licenseGate_silent_outcomes_witness :
    demoLicenseResponse.valid = false ∧
    validateKey (some "KEY-1") "KEY-1" true (.error ()) =
      (some "KEY-1", .unlocked ⟨"KEY-1", "", none, "offline"⟩) ∧
    (validateKey (some "KEY-1") "KEY-1" true (.ok demoLicenseResponse)).1 = none :=
  ⟨rfl, (licenseGate_silent_outcomes "KEY-1" demoLicenseResponse rfl).1,
   (licenseGate_silent_outcomes "KEY-1" demoLicenseResponse rfl).2.1⟩

/-- C10: asymmetric generation-parameter defaulting in createSession: the
transmitted temperature equals the supplied temperature whenever one is
supplied (an explicit 0 is preserved) and defaults to 0 otherwise, whereas
the transmitted max_tokens is 16384 whenever the supplied maxTokens is
falsy, so an explicit maxTokens of 0 is replaced by 16384. -/
theorem interpreter_param_defaulting (i : InterpreterInput) :
    (∀ t, i.temperature = some t →
      (interpreterJson i).lookup "temperature" = some (.jnum t)) ∧
    (i.temperature = none →
      (interpreterJson i).lookup "temperature" = some (.jnum 0)) ∧
    ((i.maxTokens = none ∨ i.maxTokens = some 0) →
      (interpreterJson i).lookup "max_tokens" = some (.jnum 16384)) ∧
    (∀ v, i.maxTokens = some v → v ≠ 0 →
      (interpreterJson i).lookup "max_tokens" = some (.jnum v)) := by
  refine ⟨?_, ?_, ?_, ?_⟩
  · intro t ht
    rw [interpreterJson_lookup_temperature]
    simp [jsNullishNum, ht]
  · intro ht
    rw [interpreterJson_lookup_temperature]
    simp [jsNullishNum, ht]
  · intro h
    rw [interpreterJson_lookup_maxTokens]
    rcases h with h | h <;> simp [jsNumOr, h]
  · intro v hv hv0
    rw [interpreterJson_lookup_maxTokens]
    simp [jsNumOr, hv, hv0]

/-- Demo interpreter input with explicit zero generation parameters. -/
def demoInterpZero : InterpreterInput :=
  ⟨"openai", "gpt-5", none, none, none, some 0, some 0⟩

theorem interpreter_param_defaulting_witness :
    demoInterpZero.temperature = some 0 ∧ demoInterpZero.maxTokens = some 0 ∧
    (interpreterJson demoInterpZero).lookup "temperature" = some (.jnum 0) ∧
    (interpreterJson demoInterpZero).lookup "max_tokens" = some (.jnum 16384) :=
  ⟨rfl, rfl, (interpreter_param_defaulting demoInterpZero).1 0 rfl,
   (interpreter_param_defaulting demoInterpZero).2.2.1 (Or.inr rfl)⟩

/-- C1: sealing is deterministic and the passport fingerprint is a pure
function of the ordered file list and the supplied metadata: two seal
calls over the same ordered files and metadata yield the same fingerprint,
whatever identifier and timestamp each sealed passport received. -/
theorem sealCorpus_fingerprint_deterministic (id1 id2 : String) (t1 t2 : Nat)
    (files : List CorpusFile) (m : PassportMeta) (p1 p2 : Passport)
    (h1 : sealCorpus id1 t1 files m = .ok p1)
    (h2 : sealCorpus id2 t2 files m = .ok p2) :
    p1.fingerprint = passportFingerprint files m ∧ p1.fingerprint = p2.fingerprint := by
  unfold sealCorpus at h1 h2
  by_cases h : files.isEmpty
  · rw [if_pos h] at h1
    exact absurd h1 (by simp)
  · rw [if_neg h] at h1
    rw [if_neg h] at h2
    injection h1 with h1
    injection h2 with h2
    rw [← h1, ← h2]
    exact ⟨by simp only [], by simp only []⟩

/-- Demo corpus files in canonical order. -/
def demoFiles : List CorpusFile := [⟨"A.md", [0, 1]⟩, ⟨"B.pdf", [2]⟩]

/-- Demo passport metadata. -/
def demoMeta : PassportMeta := ⟨"demo purpose", "open", "v1", ["c1"]⟩

/-- The passport produced by sealing the demo corpus under identifier id1. -/
def demoPassport1 : Passport :=
  ⟨"id1", 1, demoMeta, demoFiles, demoFiles.map (fun f => fpNats f.bytes),
   passportFingerprint demoFiles demoMeta⟩

/-- The passport produced by sealing the demo corpus under identifier id2. -/
def demoPassport2 : Passport :=
  ⟨"id2", 2, demoMeta, demoFiles, demoFiles.map (fun f => fpNats f.bytes),
   passportFingerprint demoFiles demoMeta⟩

theorem sealCorpus_fingerprint_deterministic_witness :
    demoPassport1.fingerprint = passportFingerprint demoFiles demoMeta ∧
    demoPassport1.fingerprint = demoPassport2.fingerprint :=
  sealCorpus_fingerprint_deterministic "id1" "id2" 1 2 demoFiles demoMeta
    demoPassport1 demoPassport2 rfl rfl

/-- C2: a second write to a (sessionId, runId) key that already has a
stored artifact always fails with an immutability violation, and the
originally stored artifact is unchanged by the failed write. -/
theorem writeArtifact_immutability (st : ArtifactStore) (sid rid : String)
    (a : Artifact) (payload : List Nat) (meta : ArtifactMeta)
    (h : readArtifact st sid rid = some a) :
    (writeArtifact st sid rid payload meta).2 = .error .immutabilityViolation ∧
    readArtifact (writeArtifact st sid rid payload meta).1 sid rid = some a := by
  have hw : writeArtifact st sid rid payload meta = (st, .error .immutabilityViolation) := by
    unfold writeArtifact
    rw [h]
  rw [hw]
  exact ⟨rfl, h⟩

/-- Demo artifact stored under key (s1, r1). -/
def demoArtifact : Artifact :=
  ⟨[5], ⟨"anthropic", "claude-sonnet-4-5-20250929", 3⟩,
   hash2 (fpNats [5]) (hash2 (artifactMetaFp ⟨"anthropic", "claude-sonnet-4-5-20250929", 3⟩) seedFp)⟩

/-- Demo artifact store holding demoArtifact. -/
def demoStore : ArtifactStore := [(("s1", "r1"), demoArtifact)]

theorem writeArtifact_immutability_witness :
    readArtifact demoStore "s1" "r1" = some demoArtifact ∧
    (writeArtifact demoStore "s1" "r1" [9] ⟨"x", "y", 0⟩).2 =
      .error .immutabilityViolation ∧
    readArtifact (writeArtifact demoStore "s1" "r1" [9] ⟨"x", "y", 0⟩).1 "s1" "r1" =
      some demoArtifact :=
  ⟨rfl, (writeArtifact_immutability demoStore "s1" "r1" demoArtifact [9] ⟨"x", "y", 0⟩ rfl).1,
   (writeArtifact_immutability demoStore "s1" "r1" demoArtifact [9] ⟨"x", "y", 0⟩ rfl).2⟩

/-- C3: the session-level reduction reaches failed only if every run
errored; a session with at least one captured run never reaches failed and
instead ends awaiting synthesis or completed, so per-run failure stays
per-run. -/
theorem session_failed_only_if_all_runs_fail (stype : SessionType)
    (runs : List RunTerminal) :
    (reduceTerminal stype runs = .failed → ∀ r ∈ runs, r = .errored) ∧
    (RunTerminal.captured ∈ runs →
      reduceTerminal stype runs ≠ .failed ∧
      (reduceTerminal stype runs = .awaitingSynthesis ∨
        reduceTerminal stype runs = .completed)) := by
  by_cases hall : runs.all (fun r => r == RunTerminal.errored) = true
  · refine ⟨fun _ r hr => ?_, fun hcap => ?_⟩
    · exact beq_iff_eq.mp (List.all_eq_true.mp hall r hr)
    · exact absurd (beq_iff_eq.mp (List.all_eq_true.mp hall _ hcap)) (by decide)
  · have h2 : reduceTerminal stype runs ≠ .failed ∧
        (reduceTerminal stype runs = .awaitingSynthesis ∨
          reduceTerminal stype runs = .completed) := by
      unfold reduceTerminal
      rw [if_neg hall]
      by_cases hst : (stype == SessionType.strictVerifier ||
          stype == SessionType.formalization) = true
      · rw [if_pos hst]
        exact ⟨by decide, Or.inl rfl⟩
      · rw [if_neg hst]
        exact ⟨by decide, Or.inr rfl⟩
    exact ⟨fun hf => absurd hf h2.1, fun _ => h2⟩

/-- Demo run outcomes: five interpreters of which two errored. -/
def demoRuns : List RunTerminal :=
  [.captured, .captured, .captured, .errored, .errored]

theorem session_failed_only_if_all_runs_fail_witness :
    RunTerminal.captured ∈ demoRuns ∧
    reduceTerminal .strictVerifier demoRuns ≠ .failed ∧
    reduceTerminal .strictVerifier demoRuns = .awaitingSynthesis :=
  ⟨by decide,
   ((session_failed_only_if_all_runs_fail .strictVerifier demoRuns).2 (by decide)).1,
   by decide⟩

/-- C7: a position-aggregator session-creation request without a source
session fails validation before any channel opens, and in exactly this
case the client transmits source_session_id as null (the sessions page
passes its empty source state through the or-else operator). -/
theorem position_aggregator_requires_source (n : Nat) (hn : 0 < n)
    (pid : String) (interps : List InterpreterInput) :
    createAndExecute "position_aggregator" none n =
      (0, some "ValidationError: source_session_id required for position_aggregator") ∧
    (createSessionBody
        (sessionsPageCreateInput pid interps "position_aggregator" "")).lookup
      "source_session_id" = some .jnull := by
  constructor
  · unfold createAndExecute validateSessionCreate
    rw [if_neg (Nat.pos_iff_ne_zero.mp hn)]
    rw [if_pos ⟨rfl, rfl⟩]
  · rw [createSessionBody_lookup_source]
    rfl

theorem position_aggregator_requires_source_witness :
    0 < 1 ∧
    createAndExecute "position_aggregator" none 1 =
      (0, some "ValidationError: source_session_id required for position_aggregator") :=
  ⟨Nat.zero_lt_one,
   (position_aggregator_requires_source 1 Nat.zero_lt_one "p" []).1⟩

/-! Injectivity of the modelled digests, and divergence lemmas for the
Merkle round-trip. -/

theorem foldr_pair_inj :
    ∀ {l1 l2 : List Nat}, l1.length = l2.length →
      l1.foldr Nat.pair 0 = l2.foldr Nat.pair 0 → l1 = l2 := by
  intro l1
  induction l1 with
  | nil =>
    intro l2 hl _
    cases l2 with
    | nil => rfl
    | cons b t => simp at hl
  | cons a t ih =>
    intro l2 hl hf
    cases l2 with
    | nil => simp at hl
    | cons b t2 =>
      simp only [List.foldr_cons] at hf
      obtain ⟨hab, hrest⟩ := Nat.pair_eq_pair.mp hf
      have hlen : t.length = t2.length := by simpa using hl
      rw [hab, ih hlen hrest]

theorem fpNats_inj {l1 l2 : List Nat} (h : fpNats l1 = fpNats l2) : l1 = l2 := by
  unfold fpNats at h
  obtain ⟨h1, h2⟩ := Nat.pair_eq_pair.mp h
  exact foldr_pair_inj h1 h2

theorem fpNats_set_ne (l : List Nat) (j : Nat) (hj : j < l.length) (b : Nat)
    (hb : b ≠ l.get ⟨j, hj⟩) : fpNats (l.set j b) ≠ fpNats l := by
  intro he
  have hl : l.set j b = l := fpNats_inj he
  have h1 : (l.set j b)[j]? = some b := List.getElem?_set_self hj
  rw [hl, List.getElem?_eq_getElem hj] at h1
  injection h1 with h1
  exact hb h1.symm

theorem firstDivergence_self (l : List Nat) : firstDivergence l l = none := by
  induction l with
  | nil => rfl
  | cons a t ih => simp [firstDivergence, ih]

theorem chainFpsAux_set_firstDivergence :
    ∀ (arts : List (List Nat × ArtifactMeta)) (prev i : Nat) (hi : i < arts.length)
      (art : List Nat × ArtifactMeta),
      fpNats art.1 ≠ fpNats (arts.get ⟨i, hi⟩).1 →
      firstDivergence (chainFpsAux prev (arts.set i art)) (chainFpsAux prev arts) =
        some i := by
  intro arts
  induction arts with
  | nil =>
    intro prev i hi
    exact absurd hi (by simp)
  | cons a rest ih =>
    intro prev i hi art hne
    cases i with
    | zero =>
      have hcc : hash2 (fpNats art.1) (hash2 (artifactMetaFp art.2) prev) ≠
          hash2 (fpNats a.1) (hash2 (artifactMetaFp a.2) prev) := by
        intro he
        exact hne (Nat.pair_eq_pair.mp he).1
      simp only [List.set, chainFpsAux, firstDivergence]
      rw [if_neg hcc]
    | succ k =>
      have hk : k < rest.length := by simpa using hi
      have hget : (a :: rest).get ⟨k + 1, hi⟩ = rest.get ⟨k, hk⟩ := rfl
      rw [hget] at hne
      simp only [List.set, chainFpsAux, firstDivergence, eq_self_iff_true, ite_true]
      rw [ih _ k hk art hne]
      rfl

theorem verifyBundle_export (p : Passport) (arts : List (List Nat × ArtifactMeta)) :
    verifyBundle (exportSession p arts) = (true, none) := by
  unfold verifyBundle exportSession
  simp only []
  rw [firstDivergence_self]
  simp

theorem verifyBundle_tamper (p : Passport) (arts : List (List Nat × ArtifactMeta))
    (i : Nat) (hi : i < arts.length) (art : List Nat × ArtifactMeta)
    (hne : fpNats art.1 ≠ fpNats (arts.get ⟨i, hi⟩).1) :
    verifyBundle (tamper (exportSession p arts) i art) = (false, some i) := by
  unfold verifyBundle tamper exportSession
  simp only []
  rw [chainFps, chainFps, chainFpsAux_set_firstDivergence arts seedFp i hi art hne]

/-- C4: Merkle round-trip: verifying an untampered export bundle of a
session succeeds, and altering any single byte of one stored artifact
after export makes verification fail, reporting the index of the first
divergent leaf, namely the altered artifact's leaf. -/
theorem merkle_round_trip (p : Passport) (arts : List (List Nat × ArtifactMeta))
    (i j : Nat) (hi : i < arts.length) (hj : j < (arts.get ⟨i, hi⟩).1.length)
    (b : Nat) (hb : b ≠ (arts.get ⟨i, hi⟩).1.get ⟨j, hj⟩) :
    verifyBundle (exportSession p arts) = (true, none) ∧
    verifyBundle (tamper (exportSession p arts) i
        ((arts.get ⟨i, hi⟩).1.set j b, (arts.get ⟨i, hi⟩).2)) = (false, some i) :=
  ⟨verifyBundle_export p arts,
   verifyBundle_tamper p arts i hi _ (fpNats_set_ne _ j hj b hb)⟩

/-- Demo artifact payload/metadata list for a two-run session. -/
def demoArts : List (List Nat × ArtifactMeta) :=
  [([0, 7], ⟨"anthropic", "a-model", 3⟩), ([5], ⟨"openai", "b-model", 4⟩)]

theorem merkle_round_trip_witness :
    verifyBundle (exportSession demoPassport1 demoArts) = (true, none) ∧
    verifyBundle (tamper (exportSession demoPassport1 demoArts) 0
        ((demoArts.get ⟨0, by decide⟩).1.set 0 1,
         (demoArts.get ⟨0, by decide⟩).2)) = (false, some 0) :=
  merkle_round_trip demoPassport1 demoArts 0 0 (by decide) (by decide) 1 (by decide)

end ECRVP
